import Mathlib

/-!
Verification development for the Medha RAG chatbot pipeline
(`src/states/chatbot_state.py`, `src/nodes/query_reformulator_node.py`,
`src/nodes/faiss_retriever_node.py`, `src/nodes/chatbot_node.py`,
`src/api/v1.py`, `src/graph/chatbot_graph.py`).

The Python code is shallowly embedded: pydantic models become structures,
Python exceptions become an explicit error type threaded through `Except`,
and the two external collaborators (the Groq chat model and the FAISS
vector store) become function-valued parameters, as the spec treats them
as black-box call/response services.
-/

/-- Python exception kinds raised by the embedded code. -/
inductive PyErr where
  | valueError (msg : String)
  | attributeError (msg : String)
  | validationError (msg : String)
  | upstreamError (msg : String)
  deriving Repr, DecidableEq

/-- Role tag of a langchain chat message (SystemMessage / HumanMessage /
AIMessage as used by the nodes). -/
inductive Role where
  | system
  | user
  | assistant
  deriving Repr, DecidableEq

/-- A role-tagged chat message (`langchain_core.messages`). -/
structure Message where
  role : Role
  content : String
  deriving Repr, DecidableEq

/-- A retrieved document: `page_content` plus opaque metadata, as produced
by `FAISS.similarity_search`. -/
structure Document where
  page_content : String
  metadata : List (String × String) := []
  deriving Repr, DecidableEq

/-- `ChatbotState` from `src/states/chatbot_state.py`: exactly the five
declared pydantic fields.  `question` is required (`Field(...)`), the rest
default to `None` (`metadata` to `{}`).  The class declares NO `messages`
field. -/
structure ChatbotState where
  question : String
  context : Option String := none
  answer : Option String := none
  source_docs : Option (List Document) := none
  metadata : List (String × String) := []
  deriving Repr, DecidableEq

/-- The declared field names of the `ChatbotState` pydantic model, in
declaration order, transcribed from the class body. -/
def ChatbotState.fieldNames : List String :=
  ["question", "context", "answer", "source_docs", "metadata"]

/-- Keyword arguments of a `ChatbotState(...)` call.  Each declared field
may be present or absent; `messages` models the extra keyword the nodes
and the API pass although the class does not declare it; `extraKeys`
stands for the names of any further unknown keyword arguments. -/
structure CSKwargs where
  question : Option String := none
  context : Option (Option String) := none
  answer : Option (Option String) := none
  source_docs : Option (Option (List Document)) := none
  metadata : Option (List (String × String)) := none
  messages : Option (List Message) := none
  extraKeys : List String := []

/-- The pydantic constructor of `ChatbotState`.  With `Config.extra =
"ignore"`, keyword arguments outside the declared fields (`messages`,
`extraKeys`) are silently discarded; a missing `question` is a pydantic
validation error; absent optional fields take their declared defaults. -/
def ChatbotState.fromKwargs (kw : CSKwargs) : Except PyErr ChatbotState :=
  match kw.question with
  | none => .error (.validationError "question: field required")
  | some q =>
      .ok { question := q
            context := kw.context.getD none
            answer := kw.answer.getD none
            source_docs := kw.source_docs.getD none
            metadata := kw.metadata.getD [] }

/-- The exact text of the `AttributeError` raised by a `state.messages`
attribute access. -/
def noMessagesMsg : String :=
  "ChatbotState object has no attribute messages"

/-- Embedding of the Python attribute access `state.messages`.  The
`ChatbotState` pydantic model declares no `messages` field and uses
`extra = "ignore"`, so nothing is ever stored under that name and the
access raises `AttributeError` on every instance. -/
def ChatbotState.getMessages (_ : ChatbotState) : Except PyErr (List Message) :=
  .error (.attributeError noMessagesMsg)

/-! ### The reasoning-trace sanitizer

Both `ChatbotNode.process` and `QueryReformulatorNode.process` clean the
raw model text with
`re.sub(r"<think>.*?</think>", "", text, flags=re.DOTALL).strip()`. -/

/-- Index of the first occurrence of `pat` in `l`, if any. -/
def findSub (pat : List Char) : List Char → Option Nat
  | [] => if pat.isEmpty then some 0 else none
  | c :: cs =>
      if List.isPrefixOf pat (c :: cs) then some 0
      else (findSub pat cs).map (· + 1)

/-- The opening reasoning-trace marker. -/
def thinkOpen : List Char := '<' :: 't' :: 'h' :: 'i' :: 'n' :: 'k' :: '>' :: []

/-- The closing reasoning-trace marker. -/
def thinkClose : List Char := '<' :: '/' :: 't' :: 'h' :: 'i' :: 'n' :: 'k' :: '>' :: []

/-- One left-to-right pass of `re.sub(r"<think>.*?</think>", "", s)`
(DOTALL): each non-overlapping match starts at the earliest remaining
`<think>` and ends at the earliest `</think>` after it; scanning resumes
after the removed match.  The fuel argument only serves termination: each
removed match consumes at least 15 characters, so `cs.length` fuel always
suffices. -/
def stripThinkGo : Nat → List Char → List Char
  | 0, cs => cs
  | fuel + 1, cs =>
      match findSub thinkOpen cs with
      | none => cs
      | some i =>
          match findSub thinkClose (cs.drop (i + 7)) with
          | none => cs
          | some j => cs.take i ++ stripThinkGo fuel ((cs.drop (i + 7)).drop (j + 8))

/-- Characters removed by Python's `str.strip()` (ASCII whitespace). -/
def isPySpace (c : Char) : Bool :=
  c = ' ' || c = '\t' || c = '\x0a' || c = '\x0d' || c = '\x0b' || c = '\x0c'

/-- Python's `str.strip()`: drop leading and trailing whitespace. -/
def pyStrip (s : String) : String :=
  String.mk (((s.data.dropWhile isPySpace).reverse.dropWhile isPySpace).reverse)

/-- The sanitizer both nodes apply to raw model text:
`re.sub(r"<think>.*?</think>", "", text, flags=re.DOTALL).strip()`. -/
def stripThink (s : String) : String :=
  pyStrip (String.mk (stripThinkGo s.data.length s.data))

/-- Whether `cs` contains a matched `<think> ... </think>` pair, i.e.
whether the regex `<think>.*?</think>` matches at all: an occurrence of
the opening marker with an occurrence of the closing marker after it. -/
def hasThinkPairL (cs : List Char) : Bool :=
  match findSub thinkOpen cs with
  | none => false
  | some i => (findSub thinkClose (cs.drop (i + 7))).isSome

/-- String-level form of `hasThinkPairL`. -/
def hasThinkPair (s : String) : Bool :=
  hasThinkPairL s.data

/-! ### The Language Model Gateway

`GroqLLM.get_qwen32b` returns a langchain chat model; the nodes call its
`invoke` either with a single prompt string (reformulator) or with a list
of role-tagged messages (generator), and read `.content` of the response.
It is the external collaborator of the spec's Language Model Gateway
contract, so it is modelled as a pair of call/response functions that may
fail with an upstream error. -/
structure LLM where
  invokePrompt : String → Except PyErr String
  invokeMessages : List Message → Except PyErr String

/-! ### QueryReformulatorNode (`src/nodes/query_reformulator_node.py`) -/

structure QueryReformulatorNode where
  llm : LLM

/-- The reformulation prompt built by `QueryReformulatorNode.process`. -/
def reformulatorPrompt (history question : String) : String :=
  "Given the conversation history and the last user question, rewrite the question " ++
  "to be fully self-contained without pronouns.\x0a\x0a" ++
  "Conversation history:\x0a" ++ history ++ "\x0a\x0a" ++
  "User\x27s last question: " ++ question ++ "\x0a\x0a" ++
  "Rewritten question:"

/-- The `ChatbotState(...)` call at the end of
`QueryReformulatorNode.process` (its lines 27-32): it passes `question`,
`context`, `messages` and `source_docs` (`hasattr(state, "source_docs")`
is true since the field is declared) and omits `answer` and `metadata`. -/
def reformulatorResult (state : ChatbotState) (reformulated_question : String)
    (msgs : List Message) : Except PyErr ChatbotState :=
  ChatbotState.fromKwargs
    { question := some reformulated_question
      context := some state.context
      messages := some msgs
      source_docs := some state.source_docs }

/-- Embedding of `QueryReformulatorNode.process`, statement by statement:
the history expression evaluates `state.messages` first, then the prompt
is built, the model invoked, the response sanitized, and the result state
constructed (reading `state.messages` again for the `messages=` keyword). -/
def QueryReformulatorNode.process (node : QueryReformulatorNode)
    (state : ChatbotState) : Except PyErr ChatbotState := do
  let msgs ← state.getMessages
  let history := if msgs.isEmpty then "" else
    String.intercalate "\x0a" (msgs.map Message.content)
  let prompt := reformulatorPrompt history state.question
  let response ← node.llm.invokePrompt prompt
  let reformulated_question := stripThink response
  let msgs2 ← state.getMessages
  reformulatorResult state reformulated_question msgs2

/-! ### FaissRetrieverNode (`src/nodes/faiss_retriever_node.py`)

The FAISS vector store is the spec's Similarity Index collaborator:
`search(query, k) -> ranked passages`, assumed deterministic and
read-only, hence modelled as a pure function held by the node. -/

structure FaissRetrieverNode where
  /-- `self.vectorstore.similarity_search(question, k)` -/
  similarity_search : String → Nat → List Document
  k : Nat

/-- The `ChatbotState(...)` call at the end of
`FaissRetrieverNode.process` (its line 74): `context` and `source_docs`
are set together, `question` and `messages` are forwarded, `answer` and
`metadata` are omitted. -/
def retrieverResult (state : ChatbotState) (docs : List Document)
    (context : String) (msgs : List Message) : Except PyErr ChatbotState :=
  ChatbotState.fromKwargs
    { context := some (some context)
      source_docs := some (some docs)
      question := some state.question
      messages := some msgs }

/-- Embedding of `FaissRetrieverNode.process`: validate the question,
run the similarity search, join page contents with a double newline, then
build the result state (whose argument list reads `state.messages`). -/
def FaissRetrieverNode.process (node : FaissRetrieverNode)
    (state : ChatbotState) : Except PyErr ChatbotState :=
  if state.question = "" then
    .error (.valueError "❌ Missing \x27question\x27 in ChatbotState.")
  else do
    let docs := node.similarity_search state.question node.k
    let context := String.intercalate "\x0a\x0a" (docs.map Document.page_content)
    let msgs ← state.getMessages
    retrieverResult state docs context msgs

/-! ### ChatbotNode (`src/nodes/chatbot_node.py`) -/

/-- The generator node: its langchain model plus the text of
`../prompts/system/main/v1.md` as returned by `load_prompt` (the prompt
file is data outside the core; a failing load would raise before the
history loop, which does not affect the claims below, so the loaded text
is carried as a field). -/
structure ChatbotNode where
  llm : LLM
  system_prompt_template : String

/-- The history-formatting loop of `ChatbotNode.process`: HumanMessages
and AIMessages are rendered line by line, other roles are skipped, and an
empty rendering falls back to a fixed sentence. -/
def formatHistory (msgs : List Message) : String :=
  let s := msgs.foldl (fun acc m =>
    match m.role with
    | .user => acc ++ "👤 Human: " ++ m.content ++ "\x0a"
    | .assistant => acc ++ "🤖 Medha: " ++ m.content ++ "\x0a"
    | .system => acc) ""
  if s = "" then "No previous conversation." else s

/-- `system_prompt_template.format(context=..., chat_history=...)`:
substitute the two placeholders of the system prompt template. -/
def formatTemplate (tmpl context chat_history : String) : String :=
  (tmpl.replace "\x7bcontext\x7d" context).replace "\x7bchat_history\x7d" chat_history

/-- The `ChatbotState(...)` call at the end of `ChatbotNode.process`
(its lines 57-63): all four data fields are forwarded or set, `answer`
receives the cleaned text, and the undeclared `messages` keyword receives
the extended history. -/
def chatbotResult (state : ChatbotState) (clean_answer : String)
    (new_messages : List Message) : Except PyErr ChatbotState :=
  ChatbotState.fromKwargs
    { question := some state.question
      context := some state.context
      answer := some (some clean_answer)
      source_docs := some state.source_docs
      messages := some new_messages }

/-- Embedding of `ChatbotNode.process`: validate `question` and `context`
(Python truthiness: `None` and the empty string both fail), enhance the
context with the previous answer if set, load and format the system
prompt (the history loop reads `state.messages`), build the conversation,
invoke the model, sanitize, and construct the updated state. -/
def ChatbotNode.process (node : ChatbotNode)
    (state : ChatbotState) : Except PyErr ChatbotState :=
  if state.question = "" then
    .error (.valueError "❌ Missing \x27question\x27 in ChatbotState.")
  else if state.context.getD "" = "" then
    .error (.valueError "❌ Missing \x27context\x27 in ChatbotState (did you run retriever first?).")
  else do
    let enhanced_context :=
      match state.answer with
      | some a =>
          if a = "" then state.context.getD ""
          else state.context.getD "" ++ "\x0a\x0aPrevious answer: " ++ a
      | none => state.context.getD ""
    let msgs ← state.getMessages
    let formatted_history := formatHistory msgs
    let system_prompt := formatTemplate node.system_prompt_template
      (if enhanced_context = "" then "None" else enhanced_context) formatted_history
    let user_msg : Message := ⟨.user, state.question⟩
    let conversation := ⟨Role.system, system_prompt⟩ :: msgs ++ [user_msg]
    let ai_response ← node.llm.invokeMessages conversation
    let clean_answer := stripThink ai_response
    let msgs2 ← state.getMessages
    let new_messages := msgs2 ++ [user_msg, ⟨Role.assistant, clean_answer⟩]
    chatbotResult state clean_answer new_messages

/-! ### The pipeline graph and the chat endpoint

`ChatbotGraph.build_graph` wires `reformulator -> retriever -> chatbot`
as a straight line over the `ChatbotState` schema; since every field of
the schema is (re)set by each node's constructor call, one invocation is
the sequential composition of the three `process` functions. -/

def pipelineInvoke (reformulator : QueryReformulatorNode)
    (retriever : FaissRetrieverNode) (chatbot : ChatbotNode)
    (state : ChatbotState) : Except PyErr ChatbotState := do
  let s1 ← reformulator.process state
  let s2 ← retriever.process s1
  chatbot.process s2

/-- The parsed JSON body of a POST /chat request (`src/api/v1.py`). -/
structure ChatRequest where
  question : Option String := none
  thread_id : Option String := none
  messages : List Message := []

/-- The JSON response of the /chat endpoint: its HTTP status plus the
keys the handler can emit.  Error responses populate only `error`. -/
structure ChatResponse where
  status : Nat
  error : Option String := none
  thread_id : Option String := none
  question : Option String := none
  answer : Option String := none
  context : Option String := none
  source_docs : Option (List Document) := none
  messages : Option (List Message) := none
  deriving Repr, DecidableEq

/-- `str(e)` for the embedded exceptions. -/
def PyErr.toMessage : PyErr → String
  | .valueError m => m
  | .attributeError m => m
  | .validationError m => m
  | .upstreamError m => m

/-- Embedding of the `chat` handler of `src/api/v1.py`: missing question
gives a 400; otherwise the thread id is reused when truthy, else freshly
generated (`freshId`); the initial state is built with the undeclared
`messages` keyword; any exception from state construction, the graph
invocation, or response building (which reads `result.messages`) is
caught and returned as `{"error": str(e)}` with status 500 — nothing
else. -/
def chat (reformulator : QueryReformulatorNode) (retriever : FaissRetrieverNode)
    (chatbot : ChatbotNode) (freshId : String) (req : ChatRequest) : ChatResponse :=
  match req.question with
  | none => { status := 400, error := some "Missing \x27question\x27" }
  | some q =>
      let tid := match req.thread_id with
        | none => freshId
        | some t => if t = "" then freshId else t
      match ChatbotState.fromKwargs { question := some q, messages := some req.messages } with
      | .error e => { status := 500, error := some e.toMessage }
      | .ok st =>
          match pipelineInvoke reformulator retriever chatbot st with
          | .error e => { status := 500, error := some e.toMessage }
          | .ok result =>
              match result.getMessages with
              | .error e => { status := 500, error := some e.toMessage }
              | .ok ms =>
                  { status := 200
                    thread_id := some tid
                    question := some result.question
                    answer := result.answer
                    context := result.context
                    source_docs := result.source_docs
                    messages := some ms }

/-! ### Auxiliary values for concrete evaluations -/

/-- Whether `context` and `source_docs` are both set or both absent. -/
def pairedState (s : ChatbotState) : Bool :=
  s.context.isSome == s.source_docs.isSome

/-- A gateway stub that answers every call with the fixed text "ok". -/
def dummyLLM : LLM :=
  ⟨fun _ => Except.ok "ok", fun _ => Except.ok "ok"⟩

/-- A gateway stub that answers every call with empty text. -/
def emptyLLM : LLM :=
  ⟨fun _ => Except.ok "", fun _ => Except.ok ""⟩

/-- A reformulator node over the stub gateway. -/
def reformNode : QueryReformulatorNode := ⟨dummyLLM⟩

/-- A retriever node over a one-passage similarity index with k = 5. -/
def retrNode : FaissRetrieverNode :=
  ⟨fun _ _ => [⟨"passage text", []⟩], 5⟩

/-- A generator node over the stub gateway and a two-placeholder template. -/
def genNode : ChatbotNode :=
  ⟨dummyLLM, "Context: \x7bcontext\x7d History: \x7bchat_history\x7d"⟩

/-- A state carrying a previously generated answer. -/
def answerState : ChatbotState :=
  ⟨"q", some "c", some "prior answer", none, []⟩

/-- A state whose question is empty. -/
def emptyQState : ChatbotState := ⟨"", none, none, none, []⟩

/-- A state carrying only a non-empty question. -/
def hodState : ChatbotState :=
  ⟨"Who is the head of the department?", none, none, none, []⟩

/-- Another state carrying only a non-empty question. -/
def c7State : ChatbotState :=
  ⟨"What is the department email?", none, none, none, []⟩

/-- A /chat request with a question and a thread id. -/
def req10 : ChatRequest :=
  { question := some "Who is the head of the department?", thread_id := some "t1" }

/-- Helper: every pipeline invocation fails with the `messages`
`AttributeError`, because the entry node evaluates `state.messages`
before anything else. -/
theorem pipeline_always_fails (r : QueryReformulatorNode) (f : FaissRetrieverNode)
    (c : ChatbotNode) (s : ChatbotState) :
    pipelineInvoke r f c s = Except.error (PyErr.attributeError noMessagesMsg) := rfl

/-- Helper: `re.sub` leaves a string with no matched marker pair
unchanged. -/
theorem stripThinkGo_of_no_pair (fuel : Nat) (cs : List Char)
    (h : hasThinkPairL cs = false) : stripThinkGo fuel cs = cs := by
  cases fuel with
  | zero => rfl
  | succ n =>
    unfold hasThinkPairL at h
    unfold stripThinkGo
    split
    · rfl
    next i heq =>
      split
      · rfl
      next j heq2 =>
        exfalso
        simp only [heq] at h
        simp only [heq2] at h
        simp at h

/-! ## Claim theorems -/

/-- C1: the spec says `ChatbotNode.process` on a state with non-empty
question and context returns a state whose `answer` is the cleaned model
text and whose `messages` grew by exactly the user and assistant entries,
and that one pipeline invocation grows `messages` by 2.  The code cannot
do this: (first conjunct) on a state with non-empty question and context
the generator node raises `AttributeError` reading the undeclared
`state.messages`, for every gateway and template, so no state is
returned; (second conjunct) every pipeline invocation fails the same way
at the entry node; (third conjunct) even the node's final
`ChatbotState(...)` call discards its `messages=` keyword, so the state
it builds is independent of the extended history. -/
theorem c1_generator_cannot_grow_messages :
    (∀ (llm : LLM) (tmpl : String),
      ChatbotNode.process ⟨llm, tmpl⟩ ⟨"hi", some "ctx", none, none, []⟩ =
        Except.error (PyErr.attributeError noMessagesMsg)) ∧
    (∀ (r : QueryReformulatorNode) (f : FaissRetrieverNode) (c : ChatbotNode)
        (s : ChatbotState),
      pipelineInvoke r f c s = Except.error (PyErr.attributeError noMessagesMsg)) ∧
    (∀ (s : ChatbotState) (ans : String) (m1 m2 : List Message),
      chatbotResult s ans m1 = chatbotResult s ans m2) :=
  ⟨fun _ _ => rfl, fun _ _ _ _ => rfl, fun _ _ _ _ => rfl⟩

/-- C2: the `ChatbotState` pydantic model declares only `question`,
`context`, `answer`, `source_docs`, `metadata`; with `extra = "ignore"`
its constructor silently discards a `messages` keyword (and any other
unknown keyword), so the constructed object is independent of them; a
constructed state exposes no `messages` attribute (the access raises
`AttributeError`); concretely, `ChatbotState(question="hi",
messages=[...])` yields a state holding only the declared defaults. -/
theorem c2_state_type_discards_messages :
    ChatbotState.fieldNames.contains "messages" = false ∧
    (∀ (kw : CSKwargs) (m : Option (List Message)) (ex : List String),
      ChatbotState.fromKwargs { kw with messages := m, extraKeys := ex } =
        ChatbotState.fromKwargs kw) ∧
    (∀ s : ChatbotState,
      s.getMessages = Except.error (PyErr.attributeError noMessagesMsg)) ∧
    ChatbotState.fromKwargs
        { question := some "hi", messages := some [⟨Role.user, "earlier turn"⟩] } =
      Except.ok ⟨"hi", none, none, none, []⟩ :=
  ⟨by decide, fun kw _ _ => by cases kw; rfl, fun _ => rfl, rfl⟩

/-- C3: the spec says the reformulator and retriever pass `answer` (and
`messages`) through unchanged.  The code does not: on `answerState`
(whose `answer` is set) both nodes raise `AttributeError` reading the
undeclared `state.messages`, so they return no state at all (first two
conjuncts); moreover their final `ChatbotState(...)` calls omit the
`answer` keyword, so any state they built would carry `answer = None`
rather than the input's answer (last two conjuncts). -/
theorem c3_nodes_drop_answer :
    (∀ node : QueryReformulatorNode,
      node.process answerState = Except.error (PyErr.attributeError noMessagesMsg)) ∧
    (∀ node : FaissRetrieverNode,
      node.process answerState = Except.error (PyErr.attributeError noMessagesMsg)) ∧
    (∀ (q : String) (msgs : List Message),
      (reformulatorResult answerState q msgs).map ChatbotState.answer =
        Except.ok none) ∧
    (∀ (docs : List Document) (ctx : String) (msgs : List Message),
      (retrieverResult answerState docs ctx msgs).map ChatbotState.answer =
        Except.ok none) :=
  ⟨fun _ => rfl, fun _ => rfl, fun _ _ => rfl, fun _ _ _ => rfl⟩

/-- C4: `ChatbotNode.process` validates before doing anything else: an
empty question raises the question `ValueError` and an empty or missing
context raises the context `ValueError`, in both cases for every node
(hence independently of the gateway and the template — the model is
never invoked and nothing is appended, the error path returns no state);
conversely, with non-empty question and context the result is the
`AttributeError` of the later `state.messages` read, not a precondition
`ValueError`. -/
theorem c4_generator_precondition (node node2 : ChatbotNode) (state : ChatbotState) :
    (state.question = "" →
      node.process state =
          Except.error (PyErr.valueError "❌ Missing \x27question\x27 in ChatbotState.") ∧
      node.process state = node2.process state) ∧
    (state.question ≠ "" → state.context.getD "" = "" →
      node.process state =
          Except.error (PyErr.valueError
            "❌ Missing \x27context\x27 in ChatbotState (did you run retriever first?).") ∧
      node.process state = node2.process state) ∧
    (state.question ≠ "" → state.context.getD "" ≠ "" →
      node.process state = Except.error (PyErr.attributeError noMessagesMsg)) := by
  refine ⟨?_, ?_, ?_⟩
  · intro h
    have e : ∀ n : ChatbotNode, n.process state =
        Except.error (PyErr.valueError "❌ Missing \x27question\x27 in ChatbotState.") := by
      intro n
      unfold ChatbotNode.process
      rw [if_pos h]
    exact ⟨e node, (e node).trans (e node2).symm⟩
  · intro h1 h2
    have e : ∀ n : ChatbotNode, n.process state =
        Except.error (PyErr.valueError
          "❌ Missing \x27context\x27 in ChatbotState (did you run retriever first?).") := by
      intro n
      unfold ChatbotNode.process
      rw [if_neg h1, if_pos h2]
    exact ⟨e node, (e node).trans (e node2).symm⟩
  · intro h1 h2
    unfold ChatbotNode.process
    rw [if_neg h1, if_neg h2]
    rfl

/-- Witness for C4: the three branches at concrete states. -/
theorem c4_generator_precondition_witness :
    ChatbotNode.process genNode ⟨"", some "c", none, none, []⟩ =
        Except.error (PyErr.valueError "❌ Missing \x27question\x27 in ChatbotState.") ∧
    ChatbotNode.process genNode ⟨"q", none, none, none, []⟩ =
        Except.error (PyErr.valueError
          "❌ Missing \x27context\x27 in ChatbotState (did you run retriever first?).") ∧
    ChatbotNode.process genNode ⟨"q", some "retrieved context", none, none, []⟩ =
        Except.error (PyErr.attributeError noMessagesMsg) :=
  ⟨((c4_generator_precondition genNode genNode ⟨"", some "c", none, none, []⟩).1 rfl).1,
   ((c4_generator_precondition genNode genNode ⟨"q", none, none, none, []⟩).2.1
      (by decide) rfl).1,
   (c4_generator_precondition genNode genNode
      ⟨"q", some "retrieved context", none, none, []⟩).2.2 (by decide) (by decide)⟩

/-- C5: whenever the gateway used by the reformulator fails on every
prompt, or answers every prompt with text that sanitizes to the empty
string, the node surfaces an error to its caller and never returns a
state — in particular never a state whose question is empty.  (It holds
degenerately: the node raises the `messages` `AttributeError` on every
input before the gateway is even called, so it returns no state at
all.) -/
theorem c5_reformulator_surfaces_error (node : QueryReformulatorNode)
    (state : ChatbotState)
    (_hgw : (∀ p, ∃ e, node.llm.invokePrompt p = Except.error e) ∨
           (∀ p r, node.llm.invokePrompt p = Except.ok r → stripThink r = "")) :
    node.process state = Except.error (PyErr.attributeError noMessagesMsg) := rfl

/-- Witness for C5: a gateway answering empty text, a concrete state. -/
theorem c5_reformulator_surfaces_error_witness :
    QueryReformulatorNode.process ⟨emptyLLM⟩ ⟨"q", none, none, none, []⟩ =
      Except.error (PyErr.attributeError noMessagesMsg) :=
  c5_reformulator_surfaces_error ⟨emptyLLM⟩ ⟨"q", none, none, none, []⟩
    (Or.inr (fun _ r h => by
      injection h with h2
      subst h2
      decide))

/-- C6: the spec says the retriever raises a precondition error on an
empty question and otherwise returns a state whose context is the
double-newline join of the top-k passages with those passages as
`source_docs`.  The first half holds (first conjunct, for every node
hence every index and k); the second half does not: on a state with a
non-empty question the node raises `AttributeError` at its final
`ChatbotState(...)` call, which reads the undeclared `state.messages`,
so no state is returned (second conjunct). -/
theorem c6_retriever_outcomes :
    (∀ node : FaissRetrieverNode,
      node.process emptyQState =
        Except.error (PyErr.valueError "❌ Missing \x27question\x27 in ChatbotState.")) ∧
    (∀ node : FaissRetrieverNode,
      node.process hodState = Except.error (PyErr.attributeError noMessagesMsg)) :=
  ⟨fun _ => rfl, fun _ => rfl⟩

/-- C7: the spec says two retriever invocations with the same question
and the same index contents yield identical `context` and `source_docs`.
The code yields neither: every invocation on a state with non-empty
question fails with the `messages` `AttributeError` (for every node,
hence both the first and the second invocation produce this same failure
and no context or source_docs at all). -/
theorem c7_retriever_yields_no_output :
    ∀ node : FaissRetrieverNode,
      node.process c7State = Except.error (PyErr.attributeError noMessagesMsg) :=
  fun _ => rfl

/-- C8: the sanitizer applied to raw model responses
(`re.sub(r"<think>.*?</think>", "", text, re.DOTALL).strip()`, shared by
the generator and the reformulator) removes matched
`<think>...</think>` spans — on the spec's example it yields exactly
"The answer is 42." — and on any input with no matched marker pair it is
total and falls back to the raw text (the marker-removal step leaves the
input unchanged; only the uniform outer-whitespace `strip()` applies). -/
theorem c8_think_sanitizer (s : String) (h : hasThinkPair s = false) :
    stripThink "<think>internal notes</think>The answer is 42." =
        "The answer is 42." ∧
    stripThink s = pyStrip s := by
  refine ⟨by decide, ?_⟩
  unfold stripThink
  rw [stripThinkGo_of_no_pair s.data.length s.data h]

/-- Witness for C8: an input whose markers appear only unbalanced. -/
theorem c8_think_sanitizer_witness :
    stripThink "<think>internal notes</think>The answer is 42." =
        "The answer is 42." ∧
    stripThink "answer </think> with <think> unbalanced markers" =
      pyStrip "answer </think> with <think> unbalanced markers" :=
  c8_think_sanitizer "answer </think> with <think> unbalanced markers" (by decide)

/-- C9: the pairing of `context` and `source_docs`, checked on the state
each node constructs (the `ChatbotState(...)` calls the claim cites): a
fresh initial state built from a question alone has both absent; the
reformulator's and the generator's result states preserve the pairing
status of the input state exactly (each forwards both fields); and the
retriever's result state always has both set.  Hence along
reformulator → retriever → generator from an initial state with both
absent, every constructed state has the two fields both set or both
absent. -/
theorem c9_context_source_docs_paired (s : ChatbotState) (q ctx ans : String)
    (msgs newmsgs : List Message) (docs : List Document) :
    (ChatbotState.fromKwargs { question := some q, messages := some msgs }).map
        (fun s0 => (s0.context, s0.source_docs)) = Except.ok (none, none) ∧
    (reformulatorResult s q msgs).map pairedState = Except.ok (pairedState s) ∧
    (retrieverResult s docs ctx msgs).map
        (fun s2 => (s2.context.isSome, s2.source_docs.isSome)) =
      Except.ok (true, true) ∧
    (chatbotResult s ans newmsgs).map pairedState = Except.ok (pairedState s) :=
  ⟨rfl, rfl, rfl, rfl⟩

/-- C10: the claim says error responses of the /chat endpoint carry the
original question and thread id.  Counterexample: a request with
question "Who is the head of the department?" and thread id "t1" whose
invocation ends in an invocation-level error (it does: the pipeline
fails with the `messages` `AttributeError`) receives a 500 response that
carries only the error string — its question and thread_id fields are
absent. -/
theorem c10_error_response_drops_identity :
    (chat reformNode retrNode genNode "fresh-uuid" req10).status = 500 ∧
    (chat reformNode retrNode genNode "fresh-uuid" req10).error =
        some noMessagesMsg ∧
    (chat reformNode retrNode genNode "fresh-uuid" req10).question = none ∧
    (chat reformNode retrNode genNode "fresh-uuid" req10).thread_id = none :=
  ⟨rfl, rfl, rfl, rfl⟩

/-- C10 (amended): every error response of the /chat endpoint — one
whose body sets the `error` key — carries only that error message: its
`question`, `thread_id` and `answer` keys are all absent, for every
pipeline, fresh id and request. -/
theorem c10_error_response_carries_only_error (r : QueryReformulatorNode)
    (f : FaissRetrieverNode) (c : ChatbotNode) (freshId : String)
    (req : ChatRequest) (e : String)
    (_herr : (chat r f c freshId req).error = some e) :
    (chat r f c freshId req).question = none ∧
    (chat r f c freshId req).thread_id = none ∧
    (chat r f c freshId req).answer = none := by
  unfold chat
  cases hq : req.question with
  | none => exact ⟨rfl, rfl, rfl⟩
  | some q => exact ⟨rfl, rfl, rfl⟩

/-- Witness for C10 (amended): the concrete failing request. -/
theorem c10_error_response_carries_only_error_witness :
    (chat reformNode retrNode genNode "fresh-uuid" req10).question = none ∧
    (chat reformNode retrNode genNode "fresh-uuid" req10).thread_id = none ∧
    (chat reformNode retrNode genNode "fresh-uuid" req10).answer = none :=
  c10_error_response_carries_only_error reformNode retrNode genNode "fresh-uuid"
    req10 noMessagesMsg rfl
